import Mathlib

/-!
Verification of the `weather-cli` repository against its specification.

The Python sources are shallowly embedded:
* JSON values become the inductive `Weather.JVal` (numbers as `ℚ`;
  no claim depends on floating-point rounding).
* `requests.get` is replaced by an `HttpOutcome` argument supplied by the
  environment: either a transport-level failure (a `RequestException`) or a
  status code together with the parsed JSON body.
* Python exceptions become the inductive `Weather.PyExc`; fallible code
  returns `Except PyExc α`.  The `try/except` ladders of
  `src/weather_service.py` are embedded as explicit wrapper functions
  (`wrapGeo`, `wrapWeather`) applied to the body of each method.
* `datetime.fromtimestamp(..).strftime('%Y-%m-%d')` depends on the local
  timezone, so the date derivation is a parameter `dateOf : ℚ → String`;
  the current date (`datetime.now()...`) is a parameter `today : String`.
* Python dicts (insertion ordered) become association lists
  `List (String × _)` updated in place.
-/

namespace Weather

/-- Python exception values relevant to the program.  The first three
constructors model `requests.exceptions.ConnectionError`, `Timeout` and
`HTTPError` (all subclasses of `RequestException`); the middle group models
builtin exceptions raised by dict/list access and string formatting; the
last four model the application's own hierarchy from `src/exceptions.py`. -/
inductive PyExc where
  | connectionError (msg : String)
  | timeoutError (msg : String)
  | httpError (status : Nat)
  | keyError (key : String)
  | indexError
  | typeError (msg : String)
  | valueError (msg : String)
  | attributeError (msg : String)
  | configurationError (msg : String)
  | geoCodingError (msg : String)
  | weatherAPIError (msg : String)
  | networkError (msg : String)
deriving DecidableEq

/-- Does the exception match `except requests.exceptions.RequestException`?
`HTTPError` (raised by `response.raise_for_status()`) is a subclass of
`RequestException` in the `requests` library. -/
def PyExc.isRequestException : PyExc → Bool
  | .connectionError _ => true
  | .timeoutError _ => true
  | .httpError _ => true
  | _ => false

/-- Does the exception belong to the application hierarchy rooted at
`WeatherAppError` (`src/exceptions.py`)? -/
def PyExc.isWeatherAppError : PyExc → Bool
  | .configurationError _ => true
  | .geoCodingError _ => true
  | .weatherAPIError _ => true
  | .networkError _ => true
  | _ => false

/-- Python `str(e)` for the exceptions above.  For `KeyError` Python renders
the repr of the missing key (with quotes); for `HTTPError` the text also
contains the request URL, which the embedding does not carry, so only the
status code is kept (no claim pins that message). -/
def PyExc.pyMsg : PyExc → String
  | .connectionError m => m
  | .timeoutError m => m
  | .httpError s => "HTTP error " ++ toString s
  | .keyError k => "\x27" ++ k ++ "\x27"
  | .indexError => "list index out of range"
  | .typeError m => m
  | .valueError m => m
  | .attributeError m => m
  | .configurationError m => m
  | .geoCodingError m => m
  | .weatherAPIError m => m
  | .networkError m => m

/-- Parsed JSON values.  Numbers are rationals: every numeric literal in the
relevant fixtures is exactly representable and no claim concerns
floating-point rounding. -/
inductive JVal where
  | jnull
  | jbool (b : Bool)
  | jnum (q : ℚ)
  | jstr (s : String)
  | jarr (xs : List JVal)
  | jobj (fields : List (String × JVal))

/-- Python truthiness (`if not data`): `None`, `False`, `0`, `""` and empty
containers are falsy. -/
def truthy : JVal → Bool
  | .jnull => false
  | .jbool b => b
  | .jnum q => q != 0
  | .jstr s => s != ""
  | .jarr xs => !xs.isEmpty
  | .jobj fs => !fs.isEmpty

/-- `isinstance(v, (int, float))` for a JSON value.  (Python would also
accept `bool`; the embedding does not distinguish ints from bools in a
position where this matters for any claim.) -/
def JVal.isNum : JVal → Bool
  | .jnum _ => true
  | _ => false

/-- Python `d[k]` on a parsed-JSON value: `KeyError` when the key is absent,
`TypeError` when the value is not a dict (e.g. indexing a list with a
string). -/
def getItem (v : JVal) (k : String) : Except PyExc JVal :=
  match v with
  | .jobj fs =>
    match List.lookup k fs with
    | some x => .ok x
    | none => .error (.keyError k)
  | _ => .error (.typeError "value is not subscriptable by a string key")

/-- Python `d.get(k, dflt)`: total on dicts, `AttributeError` on anything
without a `get` method. -/
def pyGet (v : JVal) (k : String) (dflt : JVal) : Except PyExc JVal :=
  match v with
  | .jobj fs =>
    .ok (match List.lookup k fs with
      | some x => x
      | none => dflt)
  | _ => .error (.attributeError "object has no attribute get")

/-- Python `v[i]` for a nonnegative index: `IndexError` when out of range,
`TypeError` on a non-sequence.  (Indexing a string, which Python would
allow, never occurs on the inputs any claim speaks about.) -/
def pyIndex (v : JVal) (i : Nat) : Except PyExc JVal :=
  match v with
  | .jarr xs =>
    match xs.get? i with
    | some x => .ok x
    | none => .error .indexError
  | _ => .error (.typeError "value is not subscriptable by an index")

/-- Require a number (used where Python feeds a value to `fromtimestamp` or
`min`/`max` against another number; a non-number would raise `TypeError`
there). -/
def asNum : JVal → Except PyExc ℚ
  | .jnum q => .ok q
  | _ => .error (.typeError "a number is required")

/-- Iterate (`for x in v`): the program only ever iterates JSON arrays; a
non-array raises `TypeError` here (Python would iterate the keys of a dict
or the characters of a string, which no claim exercises). -/
def iterArr : JVal → Except PyExc (List JVal)
  | .jarr xs => .ok xs
  | _ => .error (.typeError "value is not iterable")

/-- Spec-side pure field lookup on a JSON object (not part of the embedded
program; used only to state properties about produced bundles). -/
def jGet (v : JVal) (k : String) : Option JVal :=
  match v with
  | .jobj fs => List.lookup k fs
  | _ => none

/-! ## The HTTP environment -/

/-- The observable outcome of one `requests.get` call: either the call
raised a transport-level `RequestException`, or a response arrived with a
status code and a parsed JSON body. -/
inductive HttpOutcome where
  | transportError (e : PyExc)
  | response (status : Nat) (body : JVal)

/-- The three distinct endpoints the service can call. -/
inductive Endpoint where
  | geocoding
  | weather
  | forecast
deriving DecidableEq

/-- `response.raise_for_status()`: raises `HTTPError` exactly for status
codes 400–599. -/
def raise_for_status (status : Nat) : Except PyExc Unit :=
  if 400 ≤ status ∧ status ≤ 599 then .error (.httpError status) else .ok ()

/-! ## WeatherService (src/weather_service.py) -/

/-- The `except` ladder of `WeatherService.get_coordinates` (lines 43–48):
`RequestException` → `NetworkError`, `GeoCodingError` re-raised unchanged,
any other exception wrapped as `GeoCodingError`. -/
def wrapGeo {α : Type} (r : Except PyExc α) : Except PyExc α :=
  match r with
  | .ok v => .ok v
  | .error e =>
    if e.isRequestException then
      .error (.networkError ("Network error: " ++ e.pyMsg))
    else
      match e with
      | .geoCodingError m => .error (.geoCodingError m)
      | _ => .error (.geoCodingError ("Geocoding failed: " ++ e.pyMsg))

/-- The `except` ladder of `get_current_weather` / `get_weather_forecast`
(lines 73–78 and 103–108): `RequestException` → `NetworkError`,
`WeatherAPIError` re-raised unchanged, anything else wrapped as
`WeatherAPIError`. -/
def wrapWeather {α : Type} (r : Except PyExc α) : Except PyExc α :=
  match r with
  | .ok v => .ok v
  | .error e =>
    if e.isRequestException then
      .error (.networkError ("Network error: " ++ e.pyMsg))
    else
      match e with
      | .weatherAPIError m => .error (.weatherAPIError m)
      | _ => .error (.weatherAPIError ("Weather API call failed: " ++ e.pyMsg))

/-- Body of the `try` block of `WeatherService.get_coordinates`
(lines 21–41): the geocoding request, the explicit 401 check,
`raise_for_status`, the emptiness check, and extraction of
`data[0]['lat']`, `data[0]['lon']`. -/
def geocode_body (city country : String) (o : HttpOutcome) :
    Except PyExc (JVal × JVal) :=
  match o with
  | .transportError e => .error e
  | .response status body =>
    if status == 401 then .error (.weatherAPIError "Invalid API key")
    else
      match raise_for_status status with
      | .error e => .error e
      | .ok _ =>
        if !truthy body then
          .error (.geoCodingError
            ("City \x27" ++ city ++ "\x27 in country \x27" ++ country ++
              "\x27 not found"))
        else do
          let location ← pyIndex body 0
          let lat ← getItem location "lat"
          let lon ← getItem location "lon"
          return (lat, lon)

/-- `WeatherService.get_coordinates` (lines 17–48). -/
def get_coordinates (city country : String) (o : HttpOutcome) :
    Except PyExc (JVal × JVal) :=
  wrapGeo (geocode_body city country o)

/-- Body of the `try` block shared verbatim by `get_current_weather`
(lines 54–71) and `get_weather_forecast` (lines 84–101): the request, the
explicit 401 and 429 checks, `raise_for_status`, then `response.json()`. -/
def fetch_weather_body (o : HttpOutcome) : Except PyExc JVal :=
  match o with
  | .transportError e => .error e
  | .response status body =>
    if status == 401 then
      .error (.weatherAPIError
        "Invalid API key. Please check your OPENWEATHER_API_KEY")
    else if status == 429 then
      .error (.weatherAPIError
        "API rate limit exceeded. Please try again later")
    else
      match raise_for_status status with
      | .error e => .error e
      | .ok _ => .ok body

/-- `WeatherService.get_current_weather` (lines 50–78). -/
def get_current_weather (o : HttpOutcome) : Except PyExc JVal :=
  wrapWeather (fetch_weather_body o)

/-- `WeatherService.get_weather_forecast` (lines 80–108); its code is
identical to `get_current_weather` apart from the request URL, which the
embedding represents by the distinct `HttpOutcome` supplied for it. -/
def get_weather_forecast (o : HttpOutcome) : Except PyExc JVal :=
  wrapWeather (fetch_weather_body o)

/-! ## The forecast normalizer (`_process_forecast_to_daily`, lines 129–159) -/

/-- One value of the `daily_data` dict: the record built for one calendar
date.  `condition` and `description` are stored as raw JSON values, exactly
as the Python code stores whatever `item['weather'][0]` carried. -/
structure DayRec where
  date : String
  temp_min : ℚ
  temp_max : ℚ
  condition : JVal
  description : JVal

/-- Render a daily record back to the dict the Python code builds
(lines 139–145). -/
def DayRec.toJ (r : DayRec) : JVal :=
  .jobj [("date", .jstr r.date), ("temp_min", .jnum r.temp_min),
    ("temp_max", .jnum r.temp_max), ("condition", r.condition),
    ("description", r.description)]

/-- Insert-or-replace on an insertion-ordered association list: replace the
first binding of `date` in place, or append a new binding at the end —
Python dict assignment `daily_data[date] = ...`. -/
def setDay (date : String) (r : DayRec) :
    List (String × DayRec) → List (String × DayRec)
  | [] => [(date, r)]
  | (d, x) :: rest =>
    if d = date then (d, r) :: rest else (d, x) :: setDay date r rest

/-- The first-occurrence branch of the loop body (lines 138–145): build a
fresh day record from the item.  Field-access order matches the source;
`temp_min`/`temp_max` are required to be numbers (Python would store any
value and only fail later at `min`/`max`/formatting — no claim exercises
non-numeric temperatures). -/
def freshDay (date : String) (item : JVal) : Except PyExc DayRec := do
  let mn ← getItem item "main"
  let tmin ← asNum (← getItem mn "temp_min")
  let tmax ← asNum (← getItem mn "temp_max")
  let w ← getItem item "weather"
  let w0 ← pyIndex w 0
  let cond ← getItem w0 "main"
  let desc ← getItem w0 "description"
  return ⟨date, tmin, tmax, cond, desc⟩

/-- The repeat-date branch of the loop body (lines 146–149): widen the
stored min/max with this item's values.  Note the source touches only
`item['main']['temp_min']`/`['temp_max']` here — not `weather` — so an
item lacking `weather` succeeds on a date already seen. -/
def widenDay (r : DayRec) (item : JVal) : Except PyExc DayRec := do
  let mn ← getItem item "main"
  let tmin ← asNum (← getItem mn "temp_min")
  let tmax ← asNum (← getItem mn "temp_max")
  return { r with temp_min := min r.temp_min tmin,
                  temp_max := max r.temp_max tmax }

/-- One iteration of `for item in forecast_data['list']` (lines 135–149):
derive the date string from `item['dt']`, then create or widen that date's
record. -/
def stepItem (dateOf : ℚ → String) (acc : List (String × DayRec))
    (item : JVal) : Except PyExc (List (String × DayRec)) := do
  let dt ← asNum (← getItem item "dt")
  match List.lookup (dateOf dt) acc with
  | none => do
    let r ← freshDay (dateOf dt) item
    return setDay (dateOf dt) r acc
  | some r0 => do
    let r ← widenDay r0 item
    return setDay (dateOf dt) r acc

/-- The `daily_data` dict after the whole loop (lines 133–149). -/
def daily_data (dateOf : ℚ → String) (items : List JVal) :
    Except PyExc (List (String × DayRec)) :=
  items.foldlM (stepItem dateOf) []

/-- Lines 151–158: keep the records whose date differs from `today`, in
dict iteration (= insertion) order. -/
def dropToday (today : String) (dd : List (String × DayRec)) : List DayRec :=
  dd.filterMap (fun p => if p.1 = today then none else some p.2)

/-- `WeatherService._process_forecast_to_daily` (lines 129–159).  `dateOf`
stands for `datetime.fromtimestamp(·).strftime('%Y-%m-%d')` (local time)
and `today` for `datetime.now().strftime('%Y-%m-%d')` evaluated at
processing time. -/
def process_forecast_to_daily (dateOf : ℚ → String) (today : String)
    (forecast_data : JVal) : Except PyExc (List JVal) := do
  let lst ← getItem forecast_data "list"
  let items ← iterArr lst
  let dd ← daily_data dateOf items
  return (dropToday today dd).map DayRec.toJ

/-! ## get_weather_data (lines 110–127) -/

/-- The HTTP environment for one `get_weather_data` invocation: the outcome
each of the three endpoint calls would produce. -/
structure Env where
  geo : HttpOutcome
  cur : HttpOutcome
  fc : HttpOutcome

/-- `WeatherService.get_weather_data` (lines 110–127): geocode, fetch
current weather, fetch forecast, normalize, build the bundle with the daily
list truncated to three records.  Alongside the result it returns the list
of endpoints actually called, in order, so that claims about calls not
being attempted are expressible. -/
def get_weather_data (dateOf : ℚ → String) (today city country : String)
    (env : Env) : Except PyExc JVal × List Endpoint :=
  match get_coordinates city country env.geo with
  | .error e => (.error e, [.geocoding])
  | .ok (lat, lon) =>
    match get_current_weather env.cur with
    | .error e => (.error e, [.geocoding, .weather])
    | .ok current_weather =>
      match get_weather_forecast env.fc with
      | .error e => (.error e, [.geocoding, .weather, .forecast])
      | .ok forecast_data =>
        match process_forecast_to_daily dateOf today forecast_data with
        | .error e => (.error e, [.geocoding, .weather, .forecast])
        | .ok daily_forecast =>
          (.ok (.jobj [("city", .jstr city), ("country", .jstr country),
            ("coordinates", .jobj [("lat", lat), ("lon", lon)]),
            ("current", current_weather),
            ("daily", .jarr (daily_forecast.take 3))]),
          [.geocoding, .weather, .forecast])

/-! ## The formatter (`format_weather_output`, src/cli.py lines 35–100) -/

/-- Python `str.title()` for ASCII text: the first letter of each
alphabetic run is uppercased, the rest lowercased. -/
def pyTitle (s : String) : String :=
  let step := fun (st : Bool × List Char) (c : Char) =>
    let c2 := if c.isAlpha then (if st.1 then c.toLower else c.toUpper) else c
    (c.isAlpha, c2 :: st.2)
  ((s.toList.foldl step (false, [])).2.reverse).asString

/-- `v.title()` on a JSON value: only strings have the method. -/
def pyTitleJ : JVal → Except PyExc String
  | .jstr s => .ok (pyTitle s)
  | _ => .error (.attributeError "object has no attribute title")

/-- Rendering to one decimal place, `f"{q:.1f}"` on a number.  Rounding is
half-up here where Python rounds half-even; no claim evaluates the
formatter at an exact half of a tenth. -/
def fixed1 (q : ℚ) : String :=
  let n : Int := ⌊q * 10 + 1 / 2⌋
  let a := n.natAbs
  (if n < 0 then "-" else "") ++ toString (a / 10) ++ "." ++ toString (a % 10)

/-- The f-string conversion `{v:.1f}`: formats a number; applied to a
string (such as the `'N/A'` placeholder) Python raises
`ValueError: Unknown format code 'f' for object of type 'str'`. -/
def formatF1 : JVal → Except PyExc String
  | .jnum q => .ok (fixed1 q)
  | .jstr _ =>
    .error (.valueError
      "Unknown format code \x27f\x27 for object of type \x27str\x27")
  | _ => .error (.typeError "unsupported format string passed to the value")

mutual

/-- Python `str(v)` as used for f-string interpolation of JSON values.
Only strings are ever interpolated on the inputs the claims concern;
numbers with denominator 1 are rendered as integers, containers are
rendered structurally without Python's repr-quoting of nested strings. -/
def pyStr : JVal → String
  | .jnull => "None"
  | .jbool b => if b then "True" else "False"
  | .jnum q =>
    if q.den = 1 then toString q.num
    else toString q.num ++ "/" ++ toString q.den
  | .jstr s => s
  | .jarr xs => "[" ++ pyStrList xs ++ "]"
  | .jobj fs => "\x7b" ++ pyStrFields fs ++ "\x7d"

def pyStrList : List JVal → String
  | [] => ""
  | [x] => pyStr x
  | x :: xs => pyStr x ++ ", " ++ pyStrList xs

def pyStrFields : List (String × JVal) → String
  | [] => ""
  | [(k, v)] => k ++ ": " ++ pyStr v
  | (k, v) :: fs => k ++ ": " ++ pyStr v ++ ", " ++ pyStrFields fs

end

/-- The `weather_emojis` dict (cli.py lines 51–60), with the byte content
exactly as it appears in the source file. -/
def weather_emojis : List (String × String) :=
  [("Clear", "â˜€ï¸"), ("Clouds", "â˜ï¸"), ("Rain", "ğŸŒ§ï¸"),
   ("Drizzle", "ğŸŒ¦ï¸"), ("Thunderstorm", "â›ˆï¸"), ("Snow", "â„ï¸"),
   ("Mist", "ğŸŒ«ï¸"), ("Fog", "ğŸŒ«ï¸")]

/-- `weather_emojis.get(condition, '🌈')` — a lookup that never raises for
the key values the program produces. -/
def emojiFor (condition : JVal) : String :=
  match condition with
  | .jstr s =>
    match List.lookup s weather_emojis with
    | some e => e
    | none => "ğŸŒˆ"
  | _ => "ğŸŒˆ"

/-- The separator line `"â”€" * 40` (cli.py lines 64 and 79). -/
def dashLine : String := String.join (List.replicate 40 "â”€")

/-- One iteration of the forecast loop (cli.py lines 81–98).  The order of
the fallible operations matches Python's evaluation order, in particular
`temp_str` is computed before `description.title()` in the final line. -/
def formatDay (dateOf : ℚ → String) (day : JVal) : Except PyExc String := do
  let ts ← pyGet day "dt" (.jnum 0)
  let tq ← asNum ts
  let date_str := dateOf tq
  let temp ← pyGet day "temp" (.jobj [])
  let max_temp ← pyGet temp "max" (.jstr "N/A")
  let min_temp ← pyGet temp "min" (.jstr "N/A")
  let w0 ← pyGet day "weather" (.jarr [.jobj []])
  let weather ← pyIndex w0 0
  let condition ← pyGet weather "main" (.jstr "N/A")
  let description ← pyGet weather "description" (.jstr "N/A")
  let emoji := emojiFor condition
  let temp_str ←
    if max_temp.isNum && min_temp.isNum then do
      let mx ← formatF1 max_temp
      let mn ← formatF1 min_temp
      pure ("Max: " ++ mx ++ "Â°C, Min: " ++ mn ++ "Â°C")
    else
      pure "Temperature data unavailable"
  let descT ← pyTitleJ description
  return date_str ++ ": " ++ emoji ++ " " ++ descT ++ " (" ++ temp_str ++ ")"

/-- `format_weather_output` (cli.py lines 35–100).  Note line 68 reads the
current temperature from the top-level key `'temp'` of the current-weather
dict (with default `'N/A'`), and line 74 then formats it with `:.1f`. -/
def format_weather_output (dateOf : ℚ → String) (weather_data : JVal) :
    Except PyExc String := do
  let city ← getItem weather_data "city"
  let country ← getItem weather_data "country"
  let current ← getItem weather_data "current"
  let daily_forecast ← getItem weather_data "daily"
  let header := ["Weather for " ++ pyStr city ++ ", " ++ pyStr country,
    dashLine]
  let currentLines ←
    if truthy current then do
      let current_temp ← pyGet current "temp" (.jstr "N/A")
      let cw ← pyGet current "weather" (.jarr [.jobj []])
      let current_weather ← pyIndex cw 0
      let condition ← pyGet current_weather "main" (.jstr "N/A")
      let description ← pyGet current_weather "description" (.jstr "N/A")
      let emoji := emojiFor condition
      let descT ← pyTitleJ description
      let tempS ← formatF1 current_temp
      pure ["Current: " ++ emoji ++ " " ++ descT ++ " (" ++ tempS ++ "Â°C)",
        ""]
    else
      pure []
  let days ← iterArr daily_forecast
  let dayLines ← days.mapM (formatDay dateOf)
  return String.intercalate "\n"
    (header ++ currentLines ++ ["3-Day Forecast:", dashLine] ++ dayLines)

/-- Does the second character list start with the first? (Spec side
only.) -/
def leadsWith : List Char → List Char → Bool
  | [], _ => true
  | _ :: _, [] => false
  | p :: ps, c :: cs => p == c && leadsWith ps cs

/-- Does `pat` occur somewhere in the list? (Spec side only.) -/
def hasSubAux (pat : List Char) : List Char → Bool
  | [] => pat.isEmpty
  | c :: cs => leadsWith pat (c :: cs) || hasSubAux pat cs

/-- Substring test, used only to state properties of produced output. -/
def containsStr (s pat : String) : Bool :=
  hasSubAux pat.toList s.toList

/-! ## Parsed forecast entries

A well-formed forecast item carries exactly the fields the loop body of
`_process_forecast_to_daily` reads.  `entryOfItem` parses them in the
source's access order; on lists of well-formed items the embedded loop
agrees with the pure fold `dailyDataP` below, which the structural claims
are proved about. -/

/-- The fields the normalizer reads from one forecast item. -/
structure Entry where
  dt : ℚ
  temp_min : ℚ
  temp_max : ℚ
  condition : JVal
  description : JVal

/-- Parse one forecast item into its `Entry` fields, failing exactly when
the corresponding accesses of the loop body would raise. -/
def entryOfItem (item : JVal) : Except PyExc Entry := do
  let dt ← asNum (← getItem item "dt")
  let mn ← getItem item "main"
  let tmin ← asNum (← getItem mn "temp_min")
  let tmax ← asNum (← getItem mn "temp_max")
  let w ← getItem item "weather"
  let w0 ← pyIndex w 0
  let cond ← getItem w0 "main"
  let desc ← getItem w0 "description"
  return ⟨dt, tmin, tmax, cond, desc⟩

/-- The fresh record built for a first-seen date (lines 139–145), at the
`Entry` level. -/
def entryRec (dateOf : ℚ → String) (e : Entry) : DayRec :=
  ⟨dateOf e.dt, e.temp_min, e.temp_max, e.condition, e.description⟩

/-- The min/max widening of lines 148–149, at the `Entry` level. -/
def widen (r : DayRec) (e : Entry) : DayRec :=
  { r with temp_min := min r.temp_min e.temp_min,
           temp_max := max r.temp_max e.temp_max }

/-- One loop iteration at the `Entry` level. -/
def updateDay (dateOf : ℚ → String) (acc : List (String × DayRec))
    (e : Entry) : List (String × DayRec) :=
  match List.lookup (dateOf e.dt) acc with
  | none => setDay (dateOf e.dt) (entryRec dateOf e) acc
  | some r => setDay (dateOf e.dt) (widen r e) acc

/-- The `daily_data` dict at the `Entry` level. -/
def dailyDataP (dateOf : ℚ → String) (entries : List Entry) :
    List (String × DayRec) :=
  entries.foldl (updateDay dateOf) []

/-- The daily list (today dropped, insertion order) at the `Entry` level;
mirrors lines 151–158. -/
def daily_list (dateOf : ℚ → String) (today : String)
    (entries : List Entry) : List DayRec :=
  dropToday today (dailyDataP dateOf entries)

/-! ### Bridge between the embedded loop and the `Entry`-level fold -/

theorem exBind_ok {α β : Type} {m : Except PyExc α} {k : α → Except PyExc β}
    {b : β} : (m >>= k) = .ok b ↔ ∃ a, m = .ok a ∧ k a = .ok b := by
  cases m <;> simp [Bind.bind, Except.bind]

/-- On a well-formed item the embedded loop body agrees with the pure
update. -/
theorem stepItem_of_entry (dateOf : ℚ → String)
    (acc : List (String × DayRec)) (item : JVal) (e : Entry)
    (h : entryOfItem item = .ok e) :
    stepItem dateOf acc item = .ok (updateDay dateOf acc e) := by
  unfold entryOfItem at h
  rw [exBind_ok] at h; obtain ⟨dtj, hdtj, h⟩ := h
  rw [exBind_ok] at h; obtain ⟨dtq, hdtq, h⟩ := h
  rw [exBind_ok] at h; obtain ⟨mn, hmn, h⟩ := h
  rw [exBind_ok] at h; obtain ⟨tminj, htminj, h⟩ := h
  rw [exBind_ok] at h; obtain ⟨tmin, htmin, h⟩ := h
  rw [exBind_ok] at h; obtain ⟨tmaxj, htmaxj, h⟩ := h
  rw [exBind_ok] at h; obtain ⟨tmax, htmax, h⟩ := h
  rw [exBind_ok] at h; obtain ⟨w, hw, h⟩ := h
  rw [exBind_ok] at h; obtain ⟨w0, hw0, h⟩ := h
  rw [exBind_ok] at h; obtain ⟨cond, hcond, h⟩ := h
  rw [exBind_ok] at h; obtain ⟨desc, hdesc, h⟩ := h
  simp only [pure, Except.pure, Except.ok.injEq] at h
  subst h
  unfold stepItem updateDay
  cases hl : List.lookup (dateOf dtq) acc with
  | none =>
    simp [Bind.bind, Except.bind, hdtj, hdtq, hl, freshDay, entryRec,
      hmn, htminj, htmin, htmaxj, htmax, hw, hw0, hcond, hdesc,
      pure, Except.pure]
  | some r0 =>
    simp [Bind.bind, Except.bind, hdtj, hdtq, hl, widenDay, widen,
      hmn, htminj, htmin, htmaxj, htmax, pure, Except.pure]

/-- On a list of well-formed items the embedded loop agrees with the pure
fold, from any starting accumulator. -/
theorem foldlM_stepItem_of_entries (dateOf : ℚ → String) :
    ∀ (items : List JVal) (entries : List Entry)
      (acc : List (String × DayRec)),
      items.mapM entryOfItem = .ok entries →
      items.foldlM (stepItem dateOf) acc
        = .ok (entries.foldl (updateDay dateOf) acc) := by
  intro items
  induction items with
  | nil =>
    intro entries acc h
    simp only [List.mapM_nil, pure, Except.pure, Except.ok.injEq] at h
    subst h
    rfl
  | cons i is ih =>
    intro entries acc h
    rw [List.mapM_cons] at h
    rw [exBind_ok] at h; obtain ⟨e, he, h⟩ := h
    rw [exBind_ok] at h; obtain ⟨es, hes, h⟩ := h
    simp only [pure, Except.pure, Except.ok.injEq] at h
    subst h
    rw [List.foldlM_cons, stepItem_of_entry dateOf acc i e he]
    simp only [Bind.bind, Except.bind]
    exact ih es (updateDay dateOf acc e) hes

/-- `daily_data` on well-formed items is the pure fold. -/
theorem daily_data_of_entries (dateOf : ℚ → String) (items : List JVal)
    (entries : List Entry) (h : items.mapM entryOfItem = .ok entries) :
    daily_data dateOf items = .ok (dailyDataP dateOf entries) :=
  foldlM_stepItem_of_entries dateOf items entries [] h

/-! ### Association-list lemmas for the insertion-ordered dict -/

theorem lookup_cons_self {β : Type} {d : String} {x : β}
    {rest : List (String × β)} :
    List.lookup d ((d, x) :: rest) = some x := by
  simp [List.lookup]

theorem lookup_cons_ne {β : Type} {d k : String} {x : β}
    {rest : List (String × β)} (h : d ≠ k) :
    List.lookup d ((k, x) :: rest) = List.lookup d rest := by
  simp [List.lookup, beq_false_of_ne h]

theorem lookup_setDay (d date : String) (r : DayRec)
    (acc : List (String × DayRec)) :
    List.lookup d (setDay date r acc)
      = if date = d then some r else List.lookup d acc := by
  induction acc with
  | nil =>
    by_cases h : date = d
    · subst h; simp [setDay, lookup_cons_self]
    · simp [setDay, h, lookup_cons_ne (Ne.symm h)]
  | cons p rest ih =>
    obtain ⟨k, x⟩ := p
    by_cases hk : k = date
    · subst hk
      rw [show setDay k r ((k, x) :: rest) = (k, r) :: rest from by
        simp [setDay]]
      by_cases hd : k = d
      · subst hd; rw [lookup_cons_self, if_pos rfl]
      · rw [lookup_cons_ne (Ne.symm hd), lookup_cons_ne (Ne.symm hd),
          if_neg hd]
    · simp only [setDay, if_neg hk]
      by_cases hd : d = k
      · subst hd
        rw [lookup_cons_self, lookup_cons_self]
        rw [if_neg (fun hdd => hk hdd.symm)]
      · rw [lookup_cons_ne hd, lookup_cons_ne hd, ih]

theorem mem_setDay {date : String} {r : DayRec}
    {acc : List (String × DayRec)} :
    ∀ p ∈ setDay date r acc, p = (date, r) ∨ p ∈ acc := by
  induction acc with
  | nil =>
    intro p hp
    simpa [setDay] using hp
  | cons q rest ih =>
    intro p hp
    obtain ⟨k, x⟩ := q
    by_cases hk : k = date
    · subst hk
      rw [show setDay k r ((k, x) :: rest) = (k, r) :: rest from by
        simp [setDay]] at hp
      rcases List.mem_cons.mp hp with h | h
      · exact Or.inl h
      · exact Or.inr (List.mem_cons_of_mem _ h)
    · rw [show setDay date r ((k, x) :: rest)
          = (k, x) :: setDay date r rest from by simp [setDay, hk]] at hp
      rcases List.mem_cons.mp hp with h | h
      · exact Or.inr (List.mem_cons.mpr (Or.inl h))
      · rcases ih p h with h1 | h1
        · exact Or.inl h1
        · exact Or.inr (List.mem_cons_of_mem _ h1)

theorem mem_of_lookup {d : String} {r : DayRec}
    {acc : List (String × DayRec)} (h : List.lookup d acc = some r) :
    (d, r) ∈ acc := by
  induction acc with
  | nil => simp at h
  | cons q rest ih =>
    obtain ⟨k, x⟩ := q
    by_cases hk : d = k
    · subst hk
      rw [lookup_cons_self] at h
      injection h with hx
      subst hx
      exact List.mem_cons_self _ _
    · rw [lookup_cons_ne hk] at h
      exact List.mem_cons_of_mem _ (ih h)

theorem lookup_of_mem_nodup {d : String} {r : DayRec}
    {acc : List (String × DayRec)} (h : (d, r) ∈ acc)
    (hnd : (acc.map Prod.fst).Nodup) : List.lookup d acc = some r := by
  induction acc with
  | nil => simp at h
  | cons q rest ih =>
    obtain ⟨k, x⟩ := q
    simp only [List.map_cons, List.nodup_cons] at hnd
    rcases List.mem_cons.mp h with h1 | h1
    · rw [Prod.mk.injEq] at h1
      obtain ⟨h1a, h1b⟩ := h1
      subst h1a; subst h1b
      exact lookup_cons_self
    · by_cases hk : d = k
      · subst hk
        exact absurd (List.mem_map_of_mem Prod.fst h1) hnd.1
      · rw [lookup_cons_ne hk]
        exact ih h1 hnd.2

theorem keys_setDay (date : String) (r : DayRec)
    (acc : List (String × DayRec)) :
    (setDay date r acc).map Prod.fst
      = if (acc.map Prod.fst).contains date then acc.map Prod.fst
        else acc.map Prod.fst ++ [date] := by
  induction acc with
  | nil => simp [setDay]
  | cons p rest ih =>
    obtain ⟨k, x⟩ := p
    by_cases hk : k = date
    · subst hk
      simp [setDay]
    · simp only [setDay, if_neg hk, List.map_cons, List.contains_cons]
      have hbk : (date == k) = false := beq_false_of_ne (fun h => hk h.symm)
      rw [hbk, ih]
      simp only [Bool.false_or]
      by_cases hc : (rest.map Prod.fst).contains date = true
      · rw [if_pos hc, if_pos hc]
      · rw [if_neg hc, if_neg hc, List.cons_append]

/-! ### Characterization of the grouping fold -/

/-- The effect of one matching entry on the (optional) record of a fixed
date `d`: create it or widen it. -/
def stepO (d : String) (o : Option DayRec) (e : Entry) : Option DayRec :=
  some (match o with
    | none => ⟨d, e.temp_min, e.temp_max, e.condition, e.description⟩
    | some r => widen r e)

theorem lookup_updateDay (f : ℚ → String) (acc : List (String × DayRec))
    (e : Entry) (d : String) :
    List.lookup d (updateDay f acc e)
      = if f e.dt = d then stepO d (List.lookup d acc) e
        else List.lookup d acc := by
  unfold updateDay
  cases hl : List.lookup (f e.dt) acc with
  | none =>
    simp only [hl]
    rw [lookup_setDay]
    by_cases hd : f e.dt = d
    · rw [if_pos hd, if_pos hd, ← hd, hl]
      simp [stepO, entryRec]
    · rw [if_neg hd, if_neg hd]
  | some r0 =>
    simp only [hl]
    rw [lookup_setDay]
    by_cases hd : f e.dt = d
    · rw [if_pos hd, if_pos hd, ← hd, hl]
      simp [stepO]
    · rw [if_neg hd, if_neg hd]

/-- Lookup after the whole fold is the fold of `stepO` over exactly the
entries whose derived date matches. -/
theorem lookup_foldl_updateDay (f : ℚ → String) :
    ∀ (entries : List Entry) (acc : List (String × DayRec)) (d : String),
    List.lookup d (entries.foldl (updateDay f) acc)
      = (entries.filter (fun e => f e.dt == d)).foldl (stepO d)
          (List.lookup d acc) := by
  intro entries
  induction entries with
  | nil => intro acc d; rfl
  | cons e es ih =>
    intro acc d
    rw [List.foldl_cons, ih, lookup_updateDay]
    by_cases hd : f e.dt = d
    · rw [if_pos hd, List.filter_cons,
        if_pos (by simpa using hd), List.foldl_cons]
    · rw [if_neg hd, List.filter_cons,
        if_neg (by simpa using hd)]

/-- On the grouped dict itself. -/
theorem lookup_dailyDataP (f : ℚ → String) (entries : List Entry)
    (d : String) :
    List.lookup d (dailyDataP f entries)
      = (entries.filter (fun e => f e.dt == d)).foldl (stepO d) none := by
  unfold dailyDataP
  rw [lookup_foldl_updateDay]
  rfl

theorem foldl_stepO_some (d : String) (es : List Entry) (r : DayRec) :
    es.foldl (stepO d) (some r) = some (es.foldl widen r) := by
  induction es generalizing r with
  | nil => rfl
  | cons e es ih =>
    rw [List.foldl_cons, List.foldl_cons]
    exact ih (widen r e)

theorem foldl_widen_temp_min (es : List Entry) (r : DayRec) :
    (es.foldl widen r).temp_min
      = es.foldl (fun a x => min a x.temp_min) r.temp_min := by
  induction es generalizing r with
  | nil => rfl
  | cons e es ih =>
    rw [List.foldl_cons, List.foldl_cons, ih]
    rfl

theorem foldl_widen_temp_max (es : List Entry) (r : DayRec) :
    (es.foldl widen r).temp_max
      = es.foldl (fun a x => max a x.temp_max) r.temp_max := by
  induction es generalizing r with
  | nil => rfl
  | cons e es ih =>
    rw [List.foldl_cons, List.foldl_cons, ih]
    rfl

theorem foldl_widen_condition (es : List Entry) (r : DayRec) :
    (es.foldl widen r).condition = r.condition := by
  induction es generalizing r with
  | nil => rfl
  | cons e es ih =>
    rw [List.foldl_cons, ih]
    rfl

theorem foldl_widen_description (es : List Entry) (r : DayRec) :
    (es.foldl widen r).description = r.description := by
  induction es generalizing r with
  | nil => rfl
  | cons e es ih =>
    rw [List.foldl_cons, ih]
    rfl

theorem foldl_widen_date (es : List Entry) (r : DayRec) :
    (es.foldl widen r).date = r.date := by
  induction es generalizing r with
  | nil => rfl
  | cons e es ih =>
    rw [List.foldl_cons, ih]
    rfl

theorem foldl_min_le (es : List Entry) (a : ℚ) :
    es.foldl (fun x y => min x y.temp_min) a ≤ a := by
  induction es generalizing a with
  | nil => exact le_refl a
  | cons e es ih =>
    rw [List.foldl_cons]
    exact le_trans (ih (min a e.temp_min)) (min_le_left _ _)

theorem le_foldl_max (es : List Entry) (a : ℚ) :
    a ≤ es.foldl (fun x y => max x y.temp_max) a := by
  induction es generalizing a with
  | nil => exact le_refl a
  | cons e es ih =>
    rw [List.foldl_cons]
    exact le_trans (le_max_left _ _) (ih (max a e.temp_max))

/-! ### Keys: order and distinctness -/

/-- First-occurrence deduplication, the key order a Python dict ends up
with after the grouping loop. -/
def dedupKeys (ks : List String) : List String :=
  ks.foldl (fun acc k => if acc.contains k then acc else acc ++ [k]) []

theorem keys_updateDay (f : ℚ → String) (acc : List (String × DayRec))
    (e : Entry) :
    (updateDay f acc e).map Prod.fst
      = if (acc.map Prod.fst).contains (f e.dt) then acc.map Prod.fst
        else acc.map Prod.fst ++ [f e.dt] := by
  unfold updateDay
  cases hl : List.lookup (f e.dt) acc with
  | none => simp only [hl, keys_setDay]
  | some r0 => simp only [hl, keys_setDay]

theorem keys_foldl_updateDay (f : ℚ → String) :
    ∀ (entries : List Entry) (acc : List (String × DayRec)),
    (entries.foldl (updateDay f) acc).map Prod.fst
      = (entries.map (fun e => f e.dt)).foldl
          (fun ks k => if ks.contains k then ks else ks ++ [k])
          (acc.map Prod.fst) := by
  intro entries
  induction entries with
  | nil => intro acc; rfl
  | cons e es ih =>
    intro acc
    rw [List.foldl_cons, List.map_cons, List.foldl_cons, ih,
      keys_updateDay]

/-- The keys of the grouped dict are the derived dates of the entries, in
first-occurrence order. -/
theorem keys_dailyDataP (f : ℚ → String) (entries : List Entry) :
    (dailyDataP f entries).map Prod.fst
      = dedupKeys (entries.map (fun e => f e.dt)) := by
  unfold dailyDataP dedupKeys
  rw [keys_foldl_updateDay]
  rfl

theorem nodup_keys_updateDay (f : ℚ → String)
    (acc : List (String × DayRec)) (e : Entry)
    (h : (acc.map Prod.fst).Nodup) :
    ((updateDay f acc e).map Prod.fst).Nodup := by
  rw [keys_updateDay]
  by_cases hc : (acc.map Prod.fst).contains (f e.dt) = true
  · rw [if_pos hc]; exact h
  · rw [if_neg hc]
    have hnm : f e.dt ∉ acc.map Prod.fst := by
      intro hm
      exact hc (List.elem_eq_true_of_mem hm)
    refine List.Nodup.append h (List.nodup_singleton _) ?_
    intro x hx hx2
    rw [List.mem_singleton] at hx2
    subst hx2
    exact hnm hx

theorem nodup_keys_dailyDataP (f : ℚ → String) (entries : List Entry) :
    ((dailyDataP f entries).map Prod.fst).Nodup := by
  suffices h : ∀ (acc : List (String × DayRec)), (acc.map Prod.fst).Nodup →
      ((entries.foldl (updateDay f) acc).map Prod.fst).Nodup by
    exact h [] (by simp)
  induction entries with
  | nil => intro acc h; exact h
  | cons e es ih =>
    intro acc h
    rw [List.foldl_cons]
    exact ih _ (nodup_keys_updateDay f acc e h)

/-! ### Date consistency: every stored record's `date` field is its key -/

theorem dates_updateDay (f : ℚ → String) (acc : List (String × DayRec))
    (e : Entry) (h : ∀ p ∈ acc, (Prod.snd p).date = p.1) :
    ∀ p ∈ updateDay f acc e, (Prod.snd p).date = p.1 := by
  intro p hp
  unfold updateDay at hp
  cases hl : List.lookup (f e.dt) acc with
  | none =>
    rw [hl] at hp
    rcases mem_setDay p hp with h1 | h1
    · rw [h1]
      simp [entryRec]
    · exact h p h1
  | some r0 =>
    rw [hl] at hp
    rcases mem_setDay p hp with h1 | h1
    · rw [h1]
      have : r0.date = f e.dt := h (f e.dt, r0) (mem_of_lookup hl)
      simpa [widen] using this
    · exact h p h1

theorem dates_dailyDataP (f : ℚ → String) (entries : List Entry) :
    ∀ p ∈ dailyDataP f entries, (Prod.snd p).date = p.1 := by
  suffices h : ∀ (acc : List (String × DayRec)),
      (∀ p ∈ acc, (Prod.snd p).date = p.1) →
      ∀ p ∈ entries.foldl (updateDay f) acc, (Prod.snd p).date = p.1 by
    exact h [] (by simp)
  induction entries with
  | nil => intro acc h; exact h
  | cons e es ih =>
    intro acc h
    rw [List.foldl_cons]
    exact ih _ (dates_updateDay f acc e h)

/-- Date consistency holds for the embedded loop on arbitrary (not
necessarily fully well-formed) items as well. -/
theorem freshDay_date (date : String) (item : JVal) (r : DayRec)
    (h : freshDay date item = .ok r) : r.date = date := by
  unfold freshDay at h
  rw [exBind_ok] at h; obtain ⟨mn, hmn, h⟩ := h
  rw [exBind_ok] at h; obtain ⟨tminj, htminj, h⟩ := h
  rw [exBind_ok] at h; obtain ⟨tmin, htmin, h⟩ := h
  rw [exBind_ok] at h; obtain ⟨tmaxj, htmaxj, h⟩ := h
  rw [exBind_ok] at h; obtain ⟨tmax, htmax, h⟩ := h
  rw [exBind_ok] at h; obtain ⟨w, hw, h⟩ := h
  rw [exBind_ok] at h; obtain ⟨w0, hw0, h⟩ := h
  rw [exBind_ok] at h; obtain ⟨cond, hcond, h⟩ := h
  rw [exBind_ok] at h; obtain ⟨desc, hdesc, h⟩ := h
  simp only [pure, Except.pure, Except.ok.injEq] at h
  rw [← h]

theorem widenDay_date (r0 : DayRec) (item : JVal) (r : DayRec)
    (h : widenDay r0 item = .ok r) : r.date = r0.date := by
  unfold widenDay at h
  rw [exBind_ok] at h; obtain ⟨mn, hmn, h⟩ := h
  rw [exBind_ok] at h; obtain ⟨tminj, htminj, h⟩ := h
  rw [exBind_ok] at h; obtain ⟨tmin, htmin, h⟩ := h
  rw [exBind_ok] at h; obtain ⟨tmaxj, htmaxj, h⟩ := h
  rw [exBind_ok] at h; obtain ⟨tmax, htmax, h⟩ := h
  simp only [pure, Except.pure, Except.ok.injEq] at h
  rw [← h]

theorem dates_stepItem (f : ℚ → String) (acc : List (String × DayRec))
    (item : JVal) (acc2 : List (String × DayRec))
    (hinv : ∀ p ∈ acc, (Prod.snd p).date = p.1)
    (h : stepItem f acc item = .ok acc2) :
    ∀ p ∈ acc2, (Prod.snd p).date = p.1 := by
  unfold stepItem at h
  rw [exBind_ok] at h; obtain ⟨dtj, hdtj, h⟩ := h
  rw [exBind_ok] at h; obtain ⟨dtq, hdtq, h⟩ := h
  cases hl : List.lookup (f dtq) acc with
  | none =>
    rw [hl] at h
    rw [exBind_ok] at h; obtain ⟨r, hr, h⟩ := h
    simp only [pure, Except.pure, Except.ok.injEq] at h
    subst h
    intro p hp
    rcases mem_setDay p hp with h1 | h1
    · rw [h1]
      exact freshDay_date _ item r hr
    · exact hinv p h1
  | some r0 =>
    rw [hl] at h
    rw [exBind_ok] at h; obtain ⟨r, hr, h⟩ := h
    simp only [pure, Except.pure, Except.ok.injEq] at h
    subst h
    intro p hp
    rcases mem_setDay p hp with h1 | h1
    · rw [h1]
      rw [widenDay_date r0 item r hr]
      exact hinv (f dtq, r0) (mem_of_lookup hl)
    · exact hinv p h1

theorem dates_daily_data (f : ℚ → String) (items : List JVal)
    (dd : List (String × DayRec)) (h : daily_data f items = .ok dd) :
    ∀ p ∈ dd, (Prod.snd p).date = p.1 := by
  suffices hs : ∀ (its : List JVal) (acc acc2 : List (String × DayRec)),
      (∀ p ∈ acc, (Prod.snd p).date = p.1) →
      its.foldlM (stepItem f) acc = .ok acc2 →
      ∀ p ∈ acc2, (Prod.snd p).date = p.1 by
    exact hs items [] dd (by simp) h
  intro its
  induction its with
  | nil =>
    intro acc acc2 hinv hfold
    simp only [List.foldlM_nil, pure, Except.pure, Except.ok.injEq] at hfold
    subst hfold
    exact hinv
  | cons i is ih =>
    intro acc acc2 hinv hfold
    rw [List.foldlM_cons] at hfold
    rw [exBind_ok] at hfold
    obtain ⟨acc1, hstep, hfold⟩ := hfold
    exact ih acc1 acc2 (dates_stepItem f acc i acc1 hinv hstep) hfold

/-- Dropping today and projecting to dates equals filtering the key list,
when dates are consistent. -/
theorem map_date_dropToday (today : String) :
    ∀ (dd : List (String × DayRec)),
    (∀ p ∈ dd, (Prod.snd p).date = p.1) →
    (dropToday today dd).map DayRec.date
      = (dd.map Prod.fst).filter (fun d => d != today) := by
  intro dd
  induction dd with
  | nil => intro _; rfl
  | cons p rest ih =>
    intro h
    obtain ⟨d, r⟩ := p
    have hd : r.date = d := h (d, r) (List.mem_cons_self _ _)
    have hrest := ih (fun q hq => h q (List.mem_cons_of_mem _ hq))
    by_cases ht : d = today
    · have h1 : dropToday today ((d, r) :: rest)
          = dropToday today rest := by
        simp [dropToday, ht]
      rw [h1, List.map_cons, List.filter_cons]
      have h2 : (d != today) = false := by simp [ht]
      rw [h2]
      simpa using hrest
    · have h1 : dropToday today ((d, r) :: rest)
          = r :: dropToday today rest := by
        simp [dropToday, ht]
      rw [h1, List.map_cons, List.map_cons, List.filter_cons]
      have h2 : (d != today) = true := by simpa using ht
      rw [h2]
      rw [if_pos rfl, hd, hrest]

/-! ## Error-kind observations (spec side) -/

/-- Did the computation raise `WeatherAPIError`? -/
def isWeatherAPIErr {α : Type} : Except PyExc α → Bool
  | .error (.weatherAPIError _) => true
  | _ => false

/-- Did the computation raise `NetworkError`? -/
def isNetworkErr {α : Type} : Except PyExc α → Bool
  | .error (.networkError _) => true
  | _ => false

/-- Did the computation raise `GeoCodingError`? -/
def isGeoErr {α : Type} : Except PyExc α → Bool
  | .error (.geoCodingError _) => true
  | _ => false

/-- Either the computation succeeded, or it raised one of the four
application error kinds (never a raw exception). -/
def allAppErrors {α : Type} : Except PyExc α → Bool
  | .ok _ => true
  | .error e => e.isWeatherAppError

/-- Whatever the body of `get_coordinates` raises, the `except` ladder
turns it into an application error. -/
theorem wrapGeo_app {α : Type} (r : Except PyExc α) :
    allAppErrors (wrapGeo r) = true := by
  cases r with
  | ok v => rfl
  | error e => cases e <;> rfl

/-- Likewise for the weather fetchers' `except` ladder. -/
theorem wrapWeather_app {α : Type} (r : Except PyExc α) :
    allAppErrors (wrapWeather r) = true := by
  cases r with
  | ok v => rfl
  | error e => cases e <;> rfl

/-! ## Claim C1 -/

/-- C1, counterexample: a 401 geocoding response does NOT surface as
`WeatherAPIError` — the `WeatherAPIError("Invalid API key")` raised at the
status check (line 31) falls through to the generic `except Exception`
clause (lines 47–48) and is re-raised as `GeoCodingError`. -/
theorem c1_counterexample_geocoding_401 :
    isWeatherAPIErr (get_coordinates "Puchong" "MY"
        (.response 401 (.jarr []))) = false
    ∧ get_coordinates "Puchong" "MY" (.response 401 (.jarr []))
      = .error (.geoCodingError "Geocoding failed: Invalid API key") :=
  ⟨rfl, rfl⟩

/-- C1, amended: for every HTTP response with status code 401, the weather
endpoints (`get_current_weather`, `get_weather_forecast`) raise
`WeatherAPIError`; the geocoding endpoint (`get_coordinates`) instead
surfaces the failure as `GeoCodingError("Geocoding failed: Invalid API
key")`, because its `except Exception` clause wraps the internally raised
`WeatherAPIError`. -/
theorem c1_amended_401_kinds (b1 b2 b3 : JVal) (city country : String) :
    get_current_weather (.response 401 b1)
      = .error (.weatherAPIError
          "Invalid API key. Please check your OPENWEATHER_API_KEY")
    ∧ get_weather_forecast (.response 401 b2)
      = .error (.weatherAPIError
          "Invalid API key. Please check your OPENWEATHER_API_KEY")
    ∧ get_coordinates city country (.response 401 b3)
      = .error (.geoCodingError "Geocoding failed: Invalid API key") :=
  ⟨rfl, rfl, rfl⟩

/-- C1 witness: the amended statement at concrete inputs. -/
theorem c1_witness :
    get_current_weather (.response 401 .jnull)
      = .error (.weatherAPIError
          "Invalid API key. Please check your OPENWEATHER_API_KEY")
    ∧ get_weather_forecast (.response 401 .jnull)
      = .error (.weatherAPIError
          "Invalid API key. Please check your OPENWEATHER_API_KEY")
    ∧ get_coordinates "Puchong" "MY" (.response 401 .jnull)
      = .error (.geoCodingError "Geocoding failed: Invalid API key") :=
  c1_amended_401_kinds .jnull .jnull .jnull "Puchong" "MY"

/-! ## Claim C2 -/

/-- C2, counterexample: a 500 response to the current-weather call raises
`NetworkError`, not the generic `WeatherAPIError` the claim states —
`response.raise_for_status()` raises `HTTPError`, which is a subclass of
`RequestException`, so the transport clause (line 73) catches it first. -/
theorem c2_counterexample_500 :
    isWeatherAPIErr (get_current_weather (.response 500 .jnull)) = false
    ∧ isNetworkErr (get_current_weather (.response 500 .jnull)) = true :=
  ⟨rfl, rfl⟩

/-- C2, amended: for every HTTP response to `get_current_weather` or
`get_weather_forecast` whose status code is in 400–599 and neither 401 nor
429, the operation raises `NetworkError` (the `HTTPError` from
`raise_for_status` is a `RequestException` and is caught by the transport
clause); transport-level failures also raise `NetworkError`.  (Statuses
300–399 raise nothing: `requests` follows redirects and `raise_for_status`
only fires for 4xx/5xx.) -/
theorem c2_amended_status_kinds (s : Nat) (b : JVal) (e : PyExc)
    (h4 : 400 ≤ s) (h5 : s ≤ 599) (h401 : s ≠ 401) (h429 : s ≠ 429)
    (ht : e.isRequestException = true) :
    isNetworkErr (get_current_weather (.response s b)) = true
    ∧ isNetworkErr (get_weather_forecast (.response s b)) = true
    ∧ isNetworkErr (get_current_weather (.transportError e)) = true
    ∧ isNetworkErr (get_weather_forecast (.transportError e)) = true := by
  have e401 : (s == 401) = false := beq_false_of_ne h401
  have e429 : (s == 429) = false := beq_false_of_ne h429
  have hrs : raise_for_status s = .error (.httpError s) := by
    unfold raise_for_status
    exact if_pos ⟨h4, h5⟩
  have hb : fetch_weather_body (.response s b) = .error (.httpError s) := by
    unfold fetch_weather_body
    simp only [e401, e429, Bool.false_eq_true, if_false, hrs]
  have hresp : ∀ r : Except PyExc JVal, r = .error (.httpError s) →
      isNetworkErr (wrapWeather r) = true := by
    intro r hr
    rw [hr]
    rfl
  have htr : isNetworkErr (wrapWeather
      (fetch_weather_body (.transportError e))) = true := by
    show isNetworkErr (wrapWeather (Except.error e : Except PyExc JVal))
      = true
    simp [wrapWeather, ht, isNetworkErr]
  exact ⟨hresp _ hb, hresp _ hb, htr, htr⟩

/-- C2 witness: the amended statement at status 500 and a connection
failure. -/
theorem c2_witness :
    isNetworkErr (get_current_weather (.response 500 .jnull)) = true
    ∧ isNetworkErr (get_weather_forecast (.response 500 .jnull)) = true
    ∧ isNetworkErr (get_current_weather
        (.transportError (.connectionError "Connection refused"))) = true
    ∧ isNetworkErr (get_weather_forecast
        (.transportError (.connectionError "Connection refused"))) = true :=
  c2_amended_status_kinds 500 .jnull (.connectionError "Connection refused")
    (by decide) (by decide) (by decide) (by decide) rfl

/-! ## Claim C5 -/

/-- An environment whose geocoding and current-weather calls succeed but
whose forecast response is a 200 whose JSON body lacks the `'list'` key. -/
def badForecastEnv : Env :=
  ⟨.response 200 (.jarr [.jobj [("lat", .jnum 3), ("lon", .jnum 101)]]),
   .response 200 (.jobj [("main", .jobj [("temp", .jnum 28)])]),
   .response 200 (.jobj [("cod", .jstr "200")])⟩

/-- C5, counterexample: with a forecast body lacking `'list'`, the raw
`KeyError` raised inside `_process_forecast_to_daily` (line 135) escapes
`get_weather_data` unwrapped — it is not one of the four application error
kinds. -/
theorem c5_counterexample_raw_keyerror :
    allAppErrors ((get_weather_data (fun _ => "2025-01-01") "2025-01-01"
        "Puchong" "MY" badForecastEnv).1) = false :=
  rfl

/-- C5, amended: every exception raised inside `get_coordinates`,
`get_current_weather` and `get_weather_forecast` is caught at its origin
and re-raised as one of the four `WeatherAppError` kinds; but the forecast
normalizer `_process_forecast_to_daily` has no handler, so on a forecast
JSON lacking the `'list'` key a raw `KeyError` escapes `get_weather_data`
(only the CLI's final generic `except Exception` would catch it). -/
theorem c5_amended_wrapping (city country : String)
    (o1 o2 o3 : HttpOutcome) (f : ℚ → String) (today : String) :
    allAppErrors (get_coordinates city country o1) = true
    ∧ allAppErrors (get_current_weather o2) = true
    ∧ allAppErrors (get_weather_forecast o3) = true
    ∧ (get_weather_data f today city country badForecastEnv).1
        = .error (.keyError "list")
    ∧ (PyExc.keyError "list").isWeatherAppError = false :=
  ⟨wrapGeo_app _, wrapWeather_app _, wrapWeather_app _, rfl, rfl⟩

/-- C5 witness: the amended statement at concrete inputs. -/
theorem c5_witness :
    allAppErrors (get_coordinates "Puchong" "MY"
        (.transportError (.connectionError "x"))) = true
    ∧ allAppErrors (get_current_weather (.response 503 .jnull)) = true
    ∧ allAppErrors (get_weather_forecast (.response 200 .jnull)) = true
    ∧ (get_weather_data (fun _ => "2025-01-01") "2025-01-01" "Puchong" "MY"
        badForecastEnv).1 = .error (.keyError "list")
    ∧ (PyExc.keyError "list").isWeatherAppError = false :=
  c5_amended_wrapping "Puchong" "MY" (.transportError (.connectionError "x"))
    (.response 503 .jnull) (.response 200 .jnull)
    (fun _ => "2025-01-01") "2025-01-01"

/-! ## Claim C3 -/

/-- The current-weather fixture of the spec scenario: `main.temp = 28.5`,
as in tests/test_weather_service.py. -/
def puchongCurrent : JVal := .jobj [
  ("coord", .jobj [("lon", .jnum 101), ("lat", .jnum 3)]),
  ("weather", .jarr [.jobj [("id", .jnum 801), ("main", .jstr "Clouds"),
    ("description", .jstr "few clouds"), ("icon", .jstr "02d")]]),
  ("main", .jobj [("temp", .jnum 28.5), ("feels_like", .jnum 30.2),
    ("temp_min", .jnum 27), ("temp_max", .jnum 30),
    ("pressure", .jnum 1013), ("humidity", .jnum 65)]),
  ("wind", .jobj [("speed", .jnum 3.1), ("deg", .jnum 120)]),
  ("visibility", .jnum 10000), ("name", .jstr "Puchong")]

/-- A well-formed one-entry forecast fixture for the scenario. -/
def puchongForecast : JVal := .jobj [("list", .jarr [
  .jobj [("dt", .jnum 1760400000),
    ("main", .jobj [("temp_min", .jnum 26), ("temp_max", .jnum 31)]),
    ("weather", .jarr [.jobj [("main", .jstr "Rain"),
      ("description", .jstr "light rain")]])]])]

/-- The HTTP environment of the Puchong scenario: geocoding returns
`lat 3.0 / lon 101.0`, the weather endpoints return the fixtures above. -/
def puchongEnv : Env :=
  ⟨.response 200 (.jarr [.jobj [("name", .jstr "Puchong"), ("lat", .jnum 3),
    ("lon", .jnum 101), ("country", .jstr "MY")]]),
   .response 200 puchongCurrent,
   .response 200 puchongForecast⟩

/-- C3: in the Puchong scenario the pipeline succeeds, but
`format_weather_output` applied to the resulting bundle raises
`ValueError` instead of producing output containing `"28.5"` and
`"Puchong"`: cli.py line 68 reads the current temperature from the
top-level key `'temp'` (the service delivers it under `'main'`), gets the
`'N/A'` placeholder default, and line 74 then formats that string with
`:.1f`. -/
theorem c3_scenario_formatter_raises :
    ∃ b, (get_weather_data (fun _ => "2026-10-14") "2026-10-12" "Puchong"
        "MY" puchongEnv).1 = .ok b
      ∧ format_weather_output (fun _ => "2026-10-14") b
          = .error (.valueError
              "Unknown format code \x27f\x27 for object of type \x27str\x27") := by
  refine ⟨_, rfl, ?_⟩
  rfl

/-! ## Claim C4 -/

/-- A bundle whose truthy `current` dict has no top-level `'temp'` key —
which is the shape every successful pipeline run produces. -/
def c4CrashBundle : JVal := .jobj [
  ("city", .jstr "Puchong"), ("country", .jstr "MY"),
  ("current", .jobj [
    ("weather", .jarr [.jobj [("main", .jstr "Clear"),
      ("description", .jstr "clear sky")]]),
    ("main", .jobj [("temp", .jnum 28)])]),
  ("daily", .jarr [])]

/-- A bundle with falsy `current` and a service-shaped daily record (no
`'dt'`, `'temp'` or `'weather'` keys), exercising the daily placeholder
path. -/
def c4PlaceholderBundle : JVal := .jobj [
  ("city", .jstr "Puchong"), ("country", .jstr "MY"),
  ("current", .jobj []),
  ("daily", .jarr [.jobj [("date", .jstr "2026-10-13"),
    ("temp_min", .jnum 26), ("temp_max", .jnum 31),
    ("condition", .jstr "Rain"), ("description", .jstr "light rain")]])]

set_option maxRecDepth 4000 in
/-- C4: the daily min/max placeholder path works (missing daily
temperatures render as the literal "Temperature data unavailable"), but a
truthy `current` dict without a numeric top-level `'temp'` makes
`format_weather_output` raise `ValueError` — the `'N/A'` default of
line 68 is formatted with `:.1f` on line 74 — so the function does not
return a placeholder string for every bundle with missing numeric
fields. -/
theorem c4_formatter_crash_and_placeholder :
    format_weather_output (fun _ => "1970-01-01") c4CrashBundle
      = .error (.valueError
          "Unknown format code \x27f\x27 for object of type \x27str\x27")
    ∧ ∃ out, format_weather_output (fun _ => "1970-01-01")
          c4PlaceholderBundle = .ok out
        ∧ containsStr out "Temperature data unavailable" = true := by
  refine ⟨rfl, ⟨_, rfl, ?_⟩⟩
  decide

/-! ## Claim C6 -/

/-- C6: the normalizer groups well-formed forecast entries by the derived
date string; each produced record carries the condition and description of
the first entry of its date, the minimum of the `temp_min` values, and the
maximum of the `temp_max` values of that date's entries. -/
theorem c6_grouping_min_max_first (f : ℚ → String) (items : List JVal)
    (entries : List Entry) (hp : items.mapM entryOfItem = .ok entries)
    (dd : List (String × DayRec)) (hdd : daily_data f items = .ok dd)
    (d : String) (r : DayRec) (hmem : (d, r) ∈ dd) :
    ∃ e es, entries.filter (fun x => f x.dt == d) = e :: es
      ∧ r.date = d
      ∧ r.condition = e.condition ∧ r.description = e.description
      ∧ r.temp_min = es.foldl (fun a x => min a x.temp_min) e.temp_min
      ∧ r.temp_max = es.foldl (fun a x => max a x.temp_max) e.temp_max := by
  rw [daily_data_of_entries f items entries hp] at hdd
  injection hdd with hdd
  subst hdd
  have hlook : List.lookup d (dailyDataP f entries) = some r :=
    lookup_of_mem_nodup hmem (nodup_keys_dailyDataP f entries)
  rw [lookup_dailyDataP] at hlook
  cases hfil : entries.filter (fun e => f e.dt == d) with
  | nil =>
    rw [hfil] at hlook
    simp at hlook
  | cons e es =>
    rw [hfil, List.foldl_cons] at hlook
    rw [show stepO d none e
        = some (⟨d, e.temp_min, e.temp_max, e.condition, e.description⟩
          : DayRec) from rfl] at hlook
    rw [foldl_stepO_some] at hlook
    injection hlook with hr
    refine ⟨e, es, rfl, ?_, ?_, ?_, ?_, ?_⟩
    · rw [← hr, foldl_widen_date]
    · rw [← hr, foldl_widen_condition]
    · rw [← hr, foldl_widen_description]
    · rw [← hr, foldl_widen_temp_min]
    · rw [← hr, foldl_widen_temp_max]

/-- The two-item, one-date forecast fixture for the C6 witness. -/
def c6Items : List JVal :=
  [.jobj [("dt", .jnum 0),
     ("main", .jobj [("temp_min", .jnum 26), ("temp_max", .jnum 30)]),
     ("weather", .jarr [.jobj [("main", .jstr "Rain"),
       ("description", .jstr "light rain")]])],
   .jobj [("dt", .jnum 10),
     ("main", .jobj [("temp_min", .jnum 24), ("temp_max", .jnum 33)]),
     ("weather", .jarr [.jobj [("main", .jstr "Clear"),
       ("description", .jstr "clear sky")]])]]

/-- The parsed entries of `c6Items`. -/
def c6Entries : List Entry :=
  [⟨0, 26, 30, .jstr "Rain", .jstr "light rain"⟩,
   ⟨10, 24, 33, .jstr "Clear", .jstr "clear sky"⟩]

/-- C6 witness: both fixture items fall on the same derived date; the
record keeps the first item's condition and the widened min/max. -/
theorem c6_witness :
    ∃ e es, c6Entries.filter (fun x => (fun _ => "D") x.dt == "D") = e :: es
      ∧ (⟨"D", 24, 33, .jstr "Rain", .jstr "light rain"⟩ : DayRec).date = "D"
      ∧ (⟨"D", 24, 33, .jstr "Rain", .jstr "light rain"⟩ : DayRec).condition
          = e.condition
      ∧ (⟨"D", 24, 33, .jstr "Rain", .jstr "light rain"⟩ : DayRec).description
          = e.description
      ∧ (⟨"D", 24, 33, .jstr "Rain", .jstr "light rain"⟩ : DayRec).temp_min
          = es.foldl (fun a x => min a x.temp_min) e.temp_min
      ∧ (⟨"D", 24, 33, .jstr "Rain", .jstr "light rain"⟩ : DayRec).temp_max
          = es.foldl (fun a x => max a x.temp_max) e.temp_max :=
  c6_grouping_min_max_first (fun _ => "D") c6Items c6Entries rfl
    [("D", ⟨"D", 24, 33, .jstr "Rain", .jstr "light rain"⟩)] rfl
    "D" ⟨"D", 24, 33, .jstr "Rain", .jstr "light rain"⟩
    (List.mem_singleton.mpr rfl)

/-! ## Claim C7 -/

/-- C7: whenever the normalizer succeeds, no record in its output carries
the current date (lines 153–157 drop `today`); and whenever
`get_weather_data` succeeds, the `'daily'` list of the produced bundle has
at most 3 records (the `[:3]` slice of line 126). -/
theorem c7_no_today_and_take3 (f : ℚ → String)
    (today city country : String) (env : Env) (fd : JVal) :
    (∀ l, process_forecast_to_daily f today fd = .ok l →
      ∀ v ∈ l, jGet v "date" ≠ some (.jstr today))
    ∧ (∀ b, (get_weather_data f today city country env).1 = .ok b →
      ∃ lst, jGet b "daily" = some (.jarr lst) ∧ lst.length ≤ 3) := by
  constructor
  · intro l hl v hv
    unfold process_forecast_to_daily at hl
    rw [exBind_ok] at hl; obtain ⟨lst, hlst, hl⟩ := hl
    rw [exBind_ok] at hl; obtain ⟨items, hitems, hl⟩ := hl
    rw [exBind_ok] at hl; obtain ⟨dd, hdd, hl⟩ := hl
    simp only [pure, Except.pure, Except.ok.injEq] at hl
    subst hl
    rw [List.mem_map] at hv
    obtain ⟨rec, hrec, hv⟩ := hv
    unfold dropToday at hrec
    rw [List.mem_filterMap] at hrec
    obtain ⟨p, hp, hpe⟩ := hrec
    obtain ⟨pd, pr⟩ := p
    by_cases hpt : pd = today
    · rw [if_pos hpt] at hpe
      cases hpe
    · rw [if_neg hpt] at hpe
      injection hpe with hpe
      have hdate : rec.date = pd := by
        rw [← hpe]
        exact dates_daily_data f items dd hdd (pd, pr) hp
      subst hv
      rw [show jGet (DayRec.toJ rec) "date" = some (.jstr rec.date)
        from rfl]
      intro hctr
      injection hctr with hctr
      injection hctr with hctr
      rw [hdate] at hctr
      exact hpt hctr
  · intro b hb
    unfold get_weather_data at hb
    cases hg : get_coordinates city country env.geo with
    | error e =>
      simp only [hg] at hb
      cases hb
    | ok latlon =>
      obtain ⟨lat, lon⟩ := latlon
      simp only [hg] at hb
      cases hc : get_current_weather env.cur with
      | error e =>
        simp only [hc] at hb
        cases hb
      | ok cw =>
        simp only [hc] at hb
        cases hf : get_weather_forecast env.fc with
        | error e =>
          simp only [hf] at hb
          cases hb
        | ok fdv =>
          simp only [hf] at hb
          cases hpr : process_forecast_to_daily f today fdv with
          | error e =>
            simp only [hpr] at hb
            cases hb
          | ok daily =>
            simp only [hpr] at hb
            injection hb with hb
            subst hb
            refine ⟨daily.take 3, rfl, ?_⟩
            rw [List.length_take]
            exact min_le_left _ _

/-- The bundle produced by `get_weather_data` in the Puchong scenario. -/
def c7Bundle : JVal := .jobj [
  ("city", .jstr "Puchong"), ("country", .jstr "MY"),
  ("coordinates", .jobj [("lat", .jnum 3), ("lon", .jnum 101)]),
  ("current", puchongCurrent),
  ("daily", .jarr [DayRec.toJ
    ⟨"2026-10-14", 26, 31, .jstr "Rain", .jstr "light rain"⟩])]

/-- C7 witness: in the Puchong scenario the single normalized record does
not carry today's date, and the bundle's daily list has at most 3
records. -/
theorem c7_witness :
    jGet (DayRec.toJ ⟨"2026-10-14", 26, 31, .jstr "Rain",
        .jstr "light rain"⟩) "date" ≠ some (.jstr "2026-10-12")
    ∧ ∃ lst, jGet c7Bundle "daily" = some (.jarr lst)
        ∧ lst.length ≤ 3 := by
  have h := c7_no_today_and_take3 (fun _ => "2026-10-14") "2026-10-12"
    "Puchong" "MY" puchongEnv puchongForecast
  constructor
  · exact h.1 _ rfl _ (List.mem_singleton.mpr rfl)
  · exact h.2 c7Bundle rfl

/-! ## Claim C8 -/

/-- C8: normalization is deterministic and idempotent — two applications
of `_process_forecast_to_daily` to the same forecast data at the same
processing moment produce results that are equal, in particular identical
as sets of records. -/
theorem c8_idempotent_sets (f : ℚ → String) (today : String) (fd : JVal)
    (l1 l2 : List JVal)
    (h1 : process_forecast_to_daily f today fd = .ok l1)
    (h2 : process_forecast_to_daily f today fd = .ok l2) :
    ∀ v, v ∈ l1 ↔ v ∈ l2 := by
  rw [h1] at h2
  injection h2 with h2
  rw [h2]
  intro v
  exact Iff.rfl

/-- C8 witness: the two runs on the fixture agree on membership of the
produced record. -/
theorem c8_witness :
    DayRec.toJ ⟨"2026-10-14", 26, 31, .jstr "Rain", .jstr "light rain"⟩
        ∈ [DayRec.toJ ⟨"2026-10-14", 26, 31, .jstr "Rain",
            .jstr "light rain"⟩]
      ↔ DayRec.toJ ⟨"2026-10-14", 26, 31, .jstr "Rain", .jstr "light rain"⟩
        ∈ [DayRec.toJ ⟨"2026-10-14", 26, 31, .jstr "Rain",
            .jstr "light rain"⟩] :=
  c8_idempotent_sets (fun _ => "2026-10-14") "2026-10-12" puchongForecast
    _ _ rfl rfl _

/-! ## Claim C9 -/

/-- C9: a 2xx geocoding response whose JSON body is the empty list makes
`get_coordinates` raise `GeoCodingError` (lines 37–38, re-raised unchanged
by line 46), and `get_weather_data` calls neither weather endpoint. -/
theorem c9_empty_geocoding (f : ℚ → String) (today city country : String)
    (cur fc : HttpOutcome) (s : Nat) (hlo : 200 ≤ s) (hhi : s ≤ 299) :
    (get_weather_data f today city country
        ⟨.response s (.jarr []), cur, fc⟩).1
      = .error (.geoCodingError ("City \x27" ++ city ++
          "\x27 in country \x27" ++ country ++ "\x27 not found"))
    ∧ (get_weather_data f today city country
        ⟨.response s (.jarr []), cur, fc⟩).2 = [Endpoint.geocoding] := by
  have e401 : (s == 401) = false := beq_false_of_ne (by omega)
  have hrs : raise_for_status s = .ok () := by
    unfold raise_for_status
    rw [if_neg (by omega)]
  have hgc : get_coordinates city country (.response s (.jarr []))
      = .error (.geoCodingError ("City \x27" ++ city ++
          "\x27 in country \x27" ++ country ++ "\x27 not found")) := by
    unfold get_coordinates geocode_body
    simp only [e401, Bool.false_eq_true, if_false, hrs]
    rfl
  unfold get_weather_data
  simp only [hgc]
  exact ⟨trivial, trivial⟩

/-- C9 witness: the property at status 200 with concrete city and
country. -/
theorem c9_witness :
    (get_weather_data (fun _ => "2025-01-01") "2025-01-01" "Puchong" "MY"
        ⟨.response 200 (.jarr []),
         .transportError (.connectionError "x"),
         .transportError (.connectionError "x")⟩).1
      = .error (.geoCodingError ("City \x27" ++ "Puchong" ++
          "\x27 in country \x27" ++ "MY" ++ "\x27 not found"))
    ∧ (get_weather_data (fun _ => "2025-01-01") "2025-01-01" "Puchong" "MY"
        ⟨.response 200 (.jarr []),
         .transportError (.connectionError "x"),
         .transportError (.connectionError "x")⟩).2
      = [Endpoint.geocoding] :=
  c9_empty_geocoding (fun _ => "2025-01-01") "2025-01-01" "Puchong" "MY"
    (.transportError (.connectionError "x"))
    (.transportError (.connectionError "x")) 200 (by decide) (by decide)

/-! ## Claim C10 -/

/-- `process_forecast_to_daily` on a well-formed list of items computes the
pure `daily_list`. -/
theorem process_of_entries (f : ℚ → String) (today : String)
    (items : List JVal) (entries : List Entry)
    (hp : items.mapM entryOfItem = .ok entries) :
    process_forecast_to_daily f today (.jobj [("list", .jarr items)])
      = .ok ((daily_list f today entries).map DayRec.toJ) := by
  unfold process_forecast_to_daily
  have h1 : getItem (JVal.jobj [("list", JVal.jarr items)]) "list"
      = Except.ok (JVal.jarr items) := rfl
  have h2 : iterArr (JVal.jarr items) = Except.ok items := rfl
  have h3 := daily_data_of_entries f items entries hp
  simp only [h1, h2, h3, Bind.bind, Except.bind]
  rfl

/-- Every member of `daily_list` is the widening fold of its date's entry
group. -/
theorem daily_list_mem_group (f : ℚ → String) (today : String)
    (entries : List Entry) (r : DayRec)
    (hr : r ∈ daily_list f today entries) :
    ∃ d e es, entries.filter (fun x => f x.dt == d) = e :: es
      ∧ r.date = d
      ∧ r = es.foldl widen
          ⟨d, e.temp_min, e.temp_max, e.condition, e.description⟩ := by
  unfold daily_list dropToday at hr
  rw [List.mem_filterMap] at hr
  obtain ⟨p, hp2, hpe⟩ := hr
  obtain ⟨pd, pr⟩ := p
  by_cases hpt : pd = today
  · rw [if_pos hpt] at hpe
    cases hpe
  · rw [if_neg hpt] at hpe
    injection hpe with hpe
    have hlook := lookup_of_mem_nodup hp2 (nodup_keys_dailyDataP f entries)
    rw [lookup_dailyDataP] at hlook
    cases hfil : entries.filter (fun e => f e.dt == pd) with
    | nil =>
      rw [hfil] at hlook
      simp at hlook
    | cons e es =>
      rw [hfil, List.foldl_cons,
        show stepO pd none e = some (⟨pd, e.temp_min, e.temp_max,
          e.condition, e.description⟩ : DayRec) from rfl,
        foldl_stepO_some] at hlook
      injection hlook with hr2
      refine ⟨pd, e, es, hfil, ?_, ?_⟩
      · rw [← hpe]
        exact dates_dailyDataP f entries (pd, pr) hp2
      · rw [← hpe, ← hr2]

/-- C10: on well-formed entries whose `temp_min ≤ temp_max`, every record
of the normalizer's output satisfies `temp_min ≤ temp_max`; each record's
date is the derived date of some input entry; and the records appear in
first-occurrence order of their dates (dates list = first-occurrence
dedup of the derived dates, minus today), so the `[:3]` truncation keeps
the three earliest-first-seen non-today dates. -/
theorem c10_normalizer_invariants (f : ℚ → String) (today : String)
    (items : List JVal) (entries : List Entry)
    (hp : items.mapM entryOfItem = .ok entries)
    (hord : ∀ e ∈ entries, e.temp_min ≤ e.temp_max) :
    process_forecast_to_daily f today (.jobj [("list", .jarr items)])
        = .ok ((daily_list f today entries).map DayRec.toJ)
    ∧ (∀ r ∈ daily_list f today entries, r.temp_min ≤ r.temp_max)
    ∧ (∀ r ∈ daily_list f today entries, ∃ e ∈ entries, f e.dt = r.date)
    ∧ (daily_list f today entries).map DayRec.date
        = (dedupKeys (entries.map (fun e => f e.dt))).filter
            (fun d => d != today) := by
  refine ⟨process_of_entries f today items entries hp, ?_, ?_, ?_⟩
  · intro r hr
    obtain ⟨d0, e, es, hfil, hdate, hreq⟩ :=
      daily_list_mem_group f today entries r hr
    have he_mem : e ∈ entries := by
      have hin : e ∈ entries.filter (fun x => f x.dt == d0) := by
        rw [hfil]
        exact List.mem_cons_self _ _
      exact List.mem_of_mem_filter hin
    have hee := hord e he_mem
    rw [hreq, foldl_widen_temp_min, foldl_widen_temp_max]
    calc es.foldl (fun a x => min a x.temp_min) e.temp_min
        ≤ e.temp_min := foldl_min_le es e.temp_min
      _ ≤ e.temp_max := hee
      _ ≤ es.foldl (fun a x => max a x.temp_max) e.temp_max :=
        le_foldl_max es e.temp_max
  · intro r hr
    obtain ⟨d0, e, es, hfil, hdate, hreq⟩ :=
      daily_list_mem_group f today entries r hr
    have hin : e ∈ entries.filter (fun x => f x.dt == d0) := by
      rw [hfil]
      exact List.mem_cons_self _ _
    have hprop := List.mem_filter.mp hin
    refine ⟨e, hprop.1, ?_⟩
    have hfd : f e.dt = d0 := by simpa using hprop.2
    rw [hfd, hdate]
  · unfold daily_list
    rw [map_date_dropToday today (dailyDataP f entries)
      (dates_dailyDataP f entries), keys_dailyDataP]

/-- C10 witness: the invariants instantiated on the two-item fixture. -/
theorem c10_witness :
    process_forecast_to_daily (fun _ => "D") "X"
        (.jobj [("list", .jarr c6Items)])
      = .ok ((daily_list (fun _ => "D") "X" c6Entries).map DayRec.toJ)
    ∧ (daily_list (fun _ => "D") "X" c6Entries).map DayRec.date
      = (dedupKeys (c6Entries.map (fun e => (fun _ => "D") e.dt))).filter
          (fun d => d != "X") := by
  have h := c10_normalizer_invariants (fun _ => "D") "X" c6Items c6Entries
    rfl (by decide)
  exact ⟨h.1, h.2.2.2⟩

end Weather
